import Mathlib

/-!
Shallow embedding of the DevClimate backend (src/server.js): an Express
server with JWT auth middleware, register/login routes over a `users`
collection, a weather-lookup route that persists a search record to a
`weather_searches` collection, and paginated listing / owner-scoped delete
of that history.  JavaScript strings are Lean `String`s; MongoDB
collections are Lean lists of records; JS numbers appearing in arithmetic
are `ℚ` (upstream floats) or `ℤ`; `Math.round` is modelled exactly
(round half toward positive infinity).  External effects (bcrypt, jwt,
the upstream HTTP API) are passed in as function parameters or sum-typed
inputs, mirroring how the handlers consume their results.
-/

namespace DevClimate

/-- A JSON value as stored in a document: the persisted weather-search
document only ever holds strings and (rounded or verbatim integer)
numbers, so two constructors suffice. -/
inductive JsVal where
  | str : String → JsVal
  | int : ℤ → JsVal
deriving DecidableEq, Repr

/-- JavaScript `Math.round` on the rational abstraction of a JS number:
nearest integer, ties rounded toward positive infinity, i.e. `⌊x + 1/2⌋`. -/
def jsRound (x : ℚ) : ℤ := ⌊x + 1/2⌋

/-- JavaScript `str.split(' ')` on the character list of the string:
splits at every single space, keeping empty segments (so `"a  b"` gives
`["a", "", "b"]` and `""` gives `[""]`), exactly as `String.prototype.split`
with a single-character separator. -/
def splitOnSpace : List Char → List (List Char)
  | [] => [[]]
  | c :: cs =>
    match splitOnSpace cs with
    | [] => [[]]
    | w :: ws => if c = ' ' then [] :: w :: ws else (c :: w) :: ws

/-- `parseInt(q) || d` on a query parameter: `none` models an absent or
non-numeric parameter (`parseInt` returned `NaN`), and a parsed value of
`0` is falsy in JavaScript, so both fall back to the default `d`; every
other parsed integer (negative included) passes through. -/
def parseIntOr (q : Option ℤ) (d : ℤ) : ℤ :=
  match q with
  | none => d
  | some n => if n = 0 then d else n

/-! ## Auth middleware (`authenticateToken`, src/server.js lines 33-48) -/

/-- The identity claims a verified JWT yields (`{userId, username, email}`). -/
structure Claims where
  userId : String
  username : String
  email : String
deriving DecidableEq, Repr

/-- `authHeader && authHeader.split(' ')[1]`: the token is the second
space-separated segment of the `Authorization` header; absent header,
a header with no second segment, or an empty second segment are all
falsy. -/
def tokenOf (authHeader : Option String) : Option String :=
  match authHeader with
  | none => none
  | some h =>
    match (splitOnSpace h.data).get? 1 with
    | none => none
    | some t => if t = [] then none else some (String.mk t)

/-- Outcome of the middleware: an early JSON rejection with an HTTP
status, or proceeding to the wrapped handler with the claims attached
to the request (`req.user = user; next()`). -/
inductive AuthStep where
  | reject (status : ℕ) (msg : String)
  | proceed (user : Claims)
deriving DecidableEq, Repr

/-- The `authenticateToken` middleware.  `verify` is `jwt.verify` with the
server secret: `none` models the error callback (invalid signature or
expired), `some claims` the success callback. -/
def authenticateToken (authHeader : Option String)
    (verify : String → Option Claims) : AuthStep :=
  match tokenOf authHeader with
  | none => .reject 401 "Access token required"
  | some t =>
    match verify t with
    | none => .reject 403 "Invalid or expired token"
    | some user => .proceed user

/-- A protected route: the middleware runs first; on rejection the store
is untouched and the handler never runs, on success the handler receives
the attached claims.  The handler returns the new store state and an
HTTP status. -/
def runProtected {σ : Type} (store : σ) (authHeader : Option String)
    (verify : String → Option Claims) (handler : Claims → σ → σ × ℕ) :
    σ × ℕ :=
  match authenticateToken authHeader verify with
  | .reject s _ => (store, s)
  | .proceed u => handler u store

/-! ## Auth routes (`/api/auth/register`, `/api/auth/login`,
src/server.js lines 63-155) -/

/-- A document of the `users` collection: `_id`, `username`, `email`,
bcrypt `password` hash, `createdAt`. -/
structure User where
  _id : String
  username : String
  email : String
  password : String
  createdAt : ℤ
deriving DecidableEq, Repr

/-- JavaScript falsiness of an optional string field of a JSON body:
`!x` is true when the field is absent or the empty string. -/
def falsyStr : Option String → Bool
  | none => true
  | some s => s = ""

/-- Outcome of an auth route: an error status with its JSON `error`
message, or a success payload. -/
inductive AuthRes where
  | err (status : ℕ) (msg : String)
  | ok (userId username email : String)
deriving DecidableEq, Repr

/-- The `/api/auth/register` handler.  `hash` is `bcrypt.hash` with the
fixed salt rounds; `newId` is the `_id` MongoDB assigns on insert; `now`
is `new Date()`.  Returns the users collection after the request and the
route's outcome.  The duplicate check is `findOne({$or: [{email}, {username}]})`. -/
def register (users : List User) (username? email? password? : Option String)
    (hash : String → String) (newId : String) (now : ℤ) :
    List User × AuthRes :=
  if falsyStr username? ∨ falsyStr email? ∨ falsyStr password? then
    (users, .err 400 "Username, email, and password are required")
  else
    match username?, email?, password? with
    | some username, some email, some password =>
      if password.length < 6 then
        (users, .err 400 "Password must be at least 6 characters long")
      else if (users.find? (fun u => u.email = email ∨ u.username = username)).isSome then
        (users, .err 400 "User with this email or username already exists")
      else
        (users ++ [⟨newId, username, email, hash password, now⟩],
         .ok newId username email)
    | _, _, _ => (users, .err 400 "Username, email, and password are required")

/-- The `/api/auth/login` handler.  `compare` is `bcrypt.compare`
(plaintext, stored hash).  The user is looked up by email
(`findOne({email})`). -/
def login (users : List User) (email? password? : Option String)
    (compare : String → String → Bool) : AuthRes :=
  if falsyStr email? ∨ falsyStr password? then
    .err 400 "Email and password are required"
  else
    match email?, password? with
    | some email, some password =>
      match users.find? (fun u => u.email = email) with
      | none => .err 401 "Invalid email or password"
      | some user =>
        if compare password user.password then
          .ok user._id user.username user.email
        else
          .err 401 "Invalid email or password"
    | _, _ => .err 400 "Email and password are required"

/-- The HTTP status of an auth-route outcome (success responses are 200,
except registration's 201, which callers of this projection never need). -/
def AuthRes.status : AuthRes → ℕ
  | .err s _ => s
  | .ok _ _ _ => 200

/-! ## Weather lookup (`/api/weather/current/:city`,
src/server.js lines 177-226) -/

/-- The fields of a successful upstream OpenWeatherMap response that the
handler reads: `name`, `sys.country`, `main.temp`, `weather[0].description`,
`main.humidity`, `wind.speed`, `main.pressure`, `main.feels_like`,
`weather[0].icon`.  Floating-point upstream values are rationals;
humidity and pressure are integers in the upstream schema and are stored
verbatim. -/
structure WeatherData where
  name : String
  country : String
  temp : ℚ
  description : String
  humidity : ℤ
  wind_speed : ℚ
  pressure : ℤ
  feels_like : ℚ
  icon : String
deriving DecidableEq, Repr

/-- The upstream HTTP response: `ok w` for a 2xx response with its JSON
body, `err s` for a non-ok response with status `s`. -/
inductive Upstream where
  | ok (w : WeatherData)
  | err (status : ℕ)
deriving DecidableEq, Repr

/-- The object persisted by `insertOne` into `weather_searches`
(src/server.js lines 201-212), as the ordered key-value pairs of the JS
object literal.  `now` is `new Date()` as a timestamp. -/
def weatherSearchDoc (w : WeatherData) (userId : String) (now : ℤ) :
    List (String × JsVal) :=
  [("userId", .str userId),
   ("city", .str w.name),
   ("country", .str w.country),
   ("temperature", .int (jsRound w.temp)),
   ("description", .str w.description),
   ("humidity", .int w.humidity),
   ("windSpeed", .int (jsRound (w.wind_speed * 3.6))),
   ("pressure", .int w.pressure),
   ("feelsLike", .int (jsRound w.feels_like)),
   ("timestamp", .int now)]

/-- The JSON body of the 200 response (src/server.js lines 217-221):
the saved record id, the spread of the persisted object, and the icon
taken from the upstream body. -/
def weatherResponseDoc (w : WeatherData) (userId : String) (now : ℤ)
    (insertedId : String) : List (String × JsVal) :=
  ("id", .str insertedId) :: weatherSearchDoc w userId now
    ++ [("icon", .str w.icon)]

/-- The `/api/weather/current/:city` handler body (after the middleware
resolved `userId`).  `store` is the `weather_searches` collection as a
list of documents; `upstream` is the awaited fetch result.  A non-ok
non-404 upstream response throws and is caught by the catch block, which
answers 500.  Returns the collection after the request and the HTTP
status. -/
def currentWeather (store : List (List (String × JsVal))) (city : String)
    (userId : String) (upstream : Upstream) (now : ℤ) :
    List (List (String × JsVal)) × ℕ :=
  if city = "" then (store, 400)
  else
    match upstream with
    | .err s => if s = 404 then (store, 404) else (store, 500)
    | .ok w => (store ++ [weatherSearchDoc w userId now], 200)

/-! ## Search history (`/api/weather` listing and
`/api/weather/:searchId` delete, src/server.js lines 229-282) -/

/-- A stored `weather_searches` document as the history routes read it:
its `_id`, the owning `userId`, and the `timestamp` the listing sorts by.
(The remaining payload fields play no role in filtering, ordering or
deletion and are carried by `weatherSearchDoc` at insertion time.) -/
structure SearchRec where
  _id : String
  userId : String
  timestamp : ℤ
deriving DecidableEq, Repr

/-- The comparator realising `.sort({timestamp: -1})`: `a` may come
before `b` when its timestamp is no smaller. -/
def tsDesc (a b : SearchRec) : Bool := b.timestamp ≤ a.timestamp

/-- The collection sorted by timestamp descending, as the store returns
it for `.find(...).sort({timestamp: -1})`. -/
def sortByTimestampDesc (l : List SearchRec) : List SearchRec :=
  l.mergeSort tsDesc

/-- `Math.ceil(totalSearches / limit)` over JS numbers: the ceiling of
the exact rational quotient. -/
def ceilDiv (total : ℕ) (limit : ℤ) : ℤ := ⌈(total : ℚ) / (limit : ℚ)⌉

/-- The JSON body of a 200 listing response:
`{searches, currentPage, totalPages, totalSearches}`. -/
structure ListResult where
  searches : List SearchRec
  currentPage : ℤ
  totalPages : ℤ
  totalSearches : ℕ
deriving DecidableEq, Repr

/-- `const skip = (page - 1) * limit` (src/server.js line 234), from the
raw query parameters. -/
def skipOf (page? limit? : Option ℤ) : ℤ :=
  (parseIntOr page? 1 - 1) * parseIntOr limit? 5

/-- The `/api/weather` listing handler body (after the middleware
resolved `userId`).  `page?`/`limit?` are the `parseInt` results of the
query parameters (`none` for absent or non-numeric).  The store filters
to the caller's documents, counts them, sorts by timestamp descending
and applies skip/limit; for the nonnegative skips and positive limits the
claims exercise, MongoDB's `.skip`/`.limit` are `List.drop`/`List.take`. -/
def listSearches (store : List SearchRec) (userId : String)
    (page? limit? : Option ℤ) : ListResult :=
  let page := parseIntOr page? 1
  let limit := parseIntOr limit? 5
  let skip := (page - 1) * limit
  let mine := store.filter (fun r => r.userId = userId)
  let totalSearches := mine.length
  let totalPages := ceilDiv totalSearches limit
  let searches := ((sortByTimestampDesc mine).drop skip.toNat).take limit.toNat
  ⟨searches, page, totalPages, totalSearches⟩

/-- The concatenation of the `searches` arrays of pages `1..totalPages`
obtained from successive listing requests with a fixed limit `L`. -/
def allPages (store : List SearchRec) (userId : String) (L : ℤ) :
    List SearchRec :=
  (List.range (listSearches store userId none (some L)).totalPages.toNat).flatMap
    (fun i => (listSearches store userId (some ((i : ℤ) + 1)) (some L)).searches)

/-- A hexadecimal digit character. -/
def isHexDigit (c : Char) : Bool :=
  c.isDigit || ('a' ≤ c && c ≤ 'f') || ('A' ≤ c && c ≤ 'F')

/-- `ObjectId.isValid`: a well-formed storage identifier is a 24-character
hex string (or a 12-byte buffer-like string, the driver's other accepted
shape). -/
def isValidObjectId (s : String) : Bool :=
  (s.length = 24 && s.data.all isHexDigit) || s.length = 12

/-- `deleteOne({_id, userId})`: removes the first document matching both
the id and the owner, returning the new collection and `deletedCount`. -/
def deleteOne (recs : List SearchRec) (sid uid : String) :
    List SearchRec × ℕ :=
  match recs with
  | [] => ([], 0)
  | r :: rs =>
    if r._id = sid ∧ r.userId = uid then (rs, 1)
    else
      let (rs', c) := deleteOne rs sid uid
      (r :: rs', c)

/-- The `/api/weather/:searchId` delete handler body (after the
middleware resolved `userId`): 400 on a malformed id, `deleteOne` scoped
to both id and owner, 404 when `deletedCount` is 0, 200 otherwise.
Returns the collection after the request and the HTTP status. -/
def deleteSearch (store : List SearchRec) (searchId userId : String) :
    List SearchRec × ℕ :=
  if ¬ isValidObjectId searchId then (store, 400)
  else
    let (store', cnt) := deleteOne store searchId userId
    if cnt = 0 then (store', 404) else (store', 200)

/-! ## General lemmas -/

/-- `splitOnSpace` never returns the empty list of segments. -/
theorem splitOnSpace_ne_nil (l : List Char) : splitOnSpace l ≠ [] := by
  induction l with
  | nil => simp [splitOnSpace]
  | cons c cs ih =>
    simp only [splitOnSpace]
    cases h : splitOnSpace cs with
    | nil => exact absurd h ih
    | cons w ws =>
      by_cases hc : c = ' ' <;> simp [hc]

/-- A word with no space splits into the single segment that is itself. -/
theorem splitOnSpace_no_space (l : List Char) (h : ' ' ∉ l) :
    splitOnSpace l = [l] := by
  induction l with
  | nil => rfl
  | cons c cs ih =>
    have hc : c ≠ ' ' := fun hc => h (hc ▸ List.mem_cons_self c cs)
    have hcs : ' ' ∉ cs := fun hm => h (List.mem_cons_of_mem c hm)
    simp [splitOnSpace, ih hcs, hc]

/-- Splitting `s ++ ' ' :: t` where `s` has no space yields `s` as the
first segment followed by the segments of `t`. -/
theorem splitOnSpace_append (s t : List Char) (h : ' ' ∉ s) :
    splitOnSpace (s ++ ' ' :: t) = s :: splitOnSpace t := by
  induction s with
  | nil =>
    simp only [List.nil_append, splitOnSpace]
    cases ht : splitOnSpace t with
    | nil => exact absurd ht (splitOnSpace_ne_nil t)
    | cons w ws => simp
  | cons c cs ih =>
    have hc : c ≠ ' ' := fun hc => h (hc ▸ List.mem_cons_self c cs)
    have hcs : ' ' ∉ cs := fun hm => h (List.mem_cons_of_mem c hm)
    simp only [List.cons_append, splitOnSpace, List.append_eq, ih hcs, hc, if_false]

/-- The token extracted from a header `scheme ++ " " ++ token` where
neither word contains a space is the token, whatever the scheme word is. -/
theorem tokenOf_scheme (scheme t : List Char) (hs : ' ' ∉ scheme)
    (ht : ' ' ∉ t) (hne : t ≠ []) :
    tokenOf (some (String.mk (scheme ++ ' ' :: t))) = some (String.mk t) := by
  simp only [tokenOf]
  rw [splitOnSpace_append scheme t hs, splitOnSpace_no_space t ht]
  simp [hne]

/-- `Math.round` produces the nearest integer: it is within one half of
its argument. -/
theorem abs_jsRound_sub_le (x : ℚ) : |(jsRound x : ℚ) - x| ≤ 1/2 := by
  rw [abs_le]
  constructor
  · have := Int.lt_floor_add_one (x + 1/2)
    simp only [jsRound]
    linarith
  · have := Int.floor_le (x + 1/2)
    simp only [jsRound]
    linarith

/-- `deleteOne` leaves the collection untouched and reports a zero count
when no document matches both the id and the owner. -/
theorem deleteOne_no_match (recs : List SearchRec) (sid uid : String)
    (h : ∀ s ∈ recs, ¬ (s._id = sid ∧ s.userId = uid)) :
    deleteOne recs sid uid = (recs, 0) := by
  induction recs with
  | nil => rfl
  | cons r rs ih =>
    have hr : ¬ (r._id = sid ∧ r.userId = uid) :=
      h r (List.mem_cons_self r rs)
    have hrs : ∀ s ∈ rs, ¬ (s._id = sid ∧ s.userId = uid) :=
      fun s hs => h s (List.mem_cons_of_mem r hs)
    simp [deleteOne, hr, ih hrs]

/-- Any document `deleteOne` drops matched both the id and the owner:
every stored document either survives or matched. -/
theorem mem_deleteOne_or (recs : List SearchRec) (sid uid : String)
    (s : SearchRec) (hs : s ∈ recs) :
    s ∈ (deleteOne recs sid uid).1 ∨ (s._id = sid ∧ s.userId = uid) := by
  induction recs with
  | nil => cases hs
  | cons r rs ih =>
    by_cases hr : r._id = sid ∧ r.userId = uid
    · rcases List.mem_cons.mp hs with h | h
      · exact Or.inr (h ▸ hr)
      · exact Or.inl (by simp [deleteOne, hr, h])
    · rcases List.mem_cons.mp hs with h | h
      · subst h
        exact Or.inl (by simp [deleteOne, hr])
      · rcases ih h with h' | h'
        · exact Or.inl (by simp [deleteOne, hr]; exact Or.inr h')
        · exact Or.inr h'

/-- Concatenating the successive `drop (i*L)`/`take L` windows of a list
for `i < n` is its first `n*L` elements. -/
theorem flatMap_range_take_drop {α : Type} (l : List α) (L n : ℕ) :
    (List.range n).flatMap (fun i => (l.drop (i*L)).take L) = l.take (n*L) := by
  induction n with
  | zero => simp
  | succ n ih =>
    rw [List.range_succ, List.flatMap_append, ih]
    simp only [List.flatMap_cons, List.flatMap_nil, List.append_nil]
    rw [Nat.succ_mul, List.take_add]

/-- `tsDesc` is transitive. -/
theorem tsDesc_trans (a b c : SearchRec) (hab : tsDesc a b = true)
    (hbc : tsDesc b c = true) : tsDesc a c = true := by
  simp only [tsDesc, decide_eq_true_eq] at *
  exact le_trans hbc hab

/-- `tsDesc` is total. -/
theorem tsDesc_total (a b : SearchRec) : (tsDesc a b || tsDesc b a) = true := by
  simp only [tsDesc, Bool.or_eq_true, decide_eq_true_eq]
  exact le_total b.timestamp a.timestamp

/-- `N ≤ ⌈N / L⌉ * L` for a positive limit `L`: the page count covers
all records. -/
theorem le_ceilDiv_mul (N : ℕ) (L : ℤ) (hL : 0 < L) :
    N ≤ (ceilDiv N L).toNat * L.toNat := by
  have hLQ : (0 : ℚ) < (L : ℚ) := by exact_mod_cast hL
  have h1 : (N : ℚ) / (L : ℚ) ≤ ((ceilDiv N L : ℤ) : ℚ) := Int.le_ceil _
  have h2 : (N : ℚ) ≤ ((ceilDiv N L : ℤ) : ℚ) * (L : ℚ) := by
    rw [div_le_iff₀ hLQ] at h1
    exact h1
  have h3 : (N : ℤ) ≤ ceilDiv N L * L := by exact_mod_cast h2
  have hT0 : 0 ≤ ceilDiv N L := by
    apply Int.ceil_nonneg
    positivity
  have h4 : (N : ℤ) ≤ ((ceilDiv N L).toNat : ℤ) * ((L.toNat : ℤ)) := by
    rw [Int.toNat_of_nonneg hT0, Int.toNat_of_nonneg hL.le]
    exact h3
  exact_mod_cast h4

/-- The page-`i+1` listing with a positive explicit limit `L` is the
`drop (i*L)`/`take L` window of the caller's sorted records. -/
theorem listSearches_pos_page (store : List SearchRec) (uid : String) (i : ℕ)
    (L : ℤ) (hL : 0 < L) :
    (listSearches store uid (some ((i : ℤ) + 1)) (some L)).searches
      = ((sortByTimestampDesc (store.filter (fun r => r.userId = uid))).drop
          (i * L.toNat)).take L.toNat := by
  have hi : ((i : ℤ) + 1) ≠ 0 := by omega
  have hL0 : L ≠ 0 := by omega
  have hskip : (((i : ℤ) + 1 - 1) * L).toNat = i * L.toNat := by
    have h : ((i : ℤ) + 1 - 1) * L = ((i * L.toNat : ℕ) : ℤ) := by
      push_cast [Int.toNat_of_nonneg hL.le]
      ring
    rw [h, Int.toNat_natCast]
  simp only [listSearches, parseIntOr, hi, hL0, if_false, hskip]

/-- The reported page count with a nonzero explicit limit. -/
theorem listSearches_totalPages_none (store : List SearchRec) (uid : String)
    (L : ℤ) (hL0 : L ≠ 0) :
    (listSearches store uid none (some L)).totalPages
      = ceilDiv (store.filter (fun r => r.userId = uid)).length L := by
  simp only [listSearches, parseIntOr, hL0, if_false]

/-- Concatenating the pages `1..totalPages` with a positive limit yields
exactly the caller's records sorted by timestamp descending. -/
theorem allPages_eq (store : List SearchRec) (uid : String) (L : ℤ)
    (hL : 0 < L) :
    allPages store uid L
      = sortByTimestampDesc (store.filter (fun r => r.userId = uid)) := by
  have hL0 : L ≠ 0 := by omega
  rw [allPages, listSearches_totalPages_none store uid L hL0]
  have hpages : ∀ i : ℕ,
      (listSearches store uid (some ((i : ℤ) + 1)) (some L)).searches
        = ((sortByTimestampDesc (store.filter (fun r => r.userId = uid))).drop
            (i * L.toNat)).take L.toNat :=
    fun i => listSearches_pos_page store uid i L hL
  simp only [hpages]
  rw [flatMap_range_take_drop]
  apply List.take_of_length_le
  rw [sortByTimestampDesc, List.length_mergeSort]
  exact le_ceilDiv_mul _ L hL

/-! ## Claims -/

/-- C3: a login with an unknown email and a login with a known email but
a wrong password both produce HTTP status 401 with the byte-identical
error body `{error: "Invalid email or password"}`, so the response does
not reveal which case occurred. -/
theorem C3_no_user_enumeration (users : List User)
    (compare : String → String → Bool) (email password : String) (u : User)
    (he : email ≠ "") (hp : password ≠ "") :
    (users.find? (fun v => v.email = email) = none →
      login users (some email) (some password) compare
        = .err 401 "Invalid email or password")
    ∧ (users.find? (fun v => v.email = email) = some u →
       compare password u.password = false →
      login users (some email) (some password) compare
        = .err 401 "Invalid email or password")
    ∧ (AuthRes.err 401 "Invalid email or password").status = 401 := by
  refine ⟨fun h => ?_, fun h hc => ?_, rfl⟩
  · simp [login, falsyStr, he, hp, h]
  · simp [login, falsyStr, he, hp, h, hc]

/-- Witness for C3 at a concrete store: both failure modes answer with
the same 401 body. -/
theorem C3_no_user_enumeration_witness :
    (login [⟨"id1", "alice", "a@x.com", "hashA", 0⟩] (some "b@x.com")
        (some "secret1") (fun _ _ => false)
      = .err 401 "Invalid email or password")
    ∧ (login [⟨"id1", "alice", "a@x.com", "hashA", 0⟩] (some "a@x.com")
        (some "wrong") (fun _ _ => false)
      = .err 401 "Invalid email or password") :=
  ⟨(C3_no_user_enumeration [⟨"id1", "alice", "a@x.com", "hashA", 0⟩]
      (fun _ _ => false) "b@x.com" "secret1" ⟨"id1", "alice", "a@x.com", "hashA", 0⟩
      (by decide) (by decide)).1 (by decide),
   (C3_no_user_enumeration [⟨"id1", "alice", "a@x.com", "hashA", 0⟩]
      (fun _ _ => false) "a@x.com" "wrong" ⟨"id1", "alice", "a@x.com", "hashA", 0⟩
      (by decide) (by decide)).2.1 (by decide) rfl⟩

/-- C4 counterexample: on a concrete successful upstream response whose
icon is `"10d"`, the persisted document has no `icon` key at all — the
claim that the stored record includes the icon code is false. -/
theorem C4_counterexample :
    (weatherSearchDoc
        ⟨"London", "GB", 43/2, "light rain", 80, 41/10, 1012, 101/5, "10d"⟩
        "u1" 0).lookup "icon" = none
    ∧ (WeatherData.mk "London" "GB" (43/2) "light rain" 80 (41/10) 1012
        (101/5) "10d").icon = "10d" :=
  ⟨rfl, rfl⟩

/-- C4 (amended): the persisted WeatherSearch contains the owning user
id, resolved city name, country, temperature, description, humidity,
wind speed (km/h), pressure, feels-like and timestamp — but not the
icon code, which appears only in the HTTP response body (together with
the generated id), taken verbatim from the upstream response. -/
theorem C4_persisted_fields (w : WeatherData) (userId : String) (now : ℤ)
    (oid : String) :
    (weatherSearchDoc w userId now).lookup "userId" = some (.str userId)
    ∧ (weatherSearchDoc w userId now).lookup "city" = some (.str w.name)
    ∧ (weatherSearchDoc w userId now).lookup "country" = some (.str w.country)
    ∧ (weatherSearchDoc w userId now).lookup "temperature"
        = some (.int (jsRound w.temp))
    ∧ (weatherSearchDoc w userId now).lookup "description"
        = some (.str w.description)
    ∧ (weatherSearchDoc w userId now).lookup "humidity" = some (.int w.humidity)
    ∧ (weatherSearchDoc w userId now).lookup "windSpeed"
        = some (.int (jsRound (w.wind_speed * 3.6)))
    ∧ (weatherSearchDoc w userId now).lookup "pressure" = some (.int w.pressure)
    ∧ (weatherSearchDoc w userId now).lookup "feelsLike"
        = some (.int (jsRound w.feels_like))
    ∧ (weatherSearchDoc w userId now).lookup "timestamp" = some (.int now)
    ∧ (weatherSearchDoc w userId now).lookup "icon" = none
    ∧ (weatherResponseDoc w userId now oid).lookup "icon" = some (.str w.icon)
    ∧ (weatherResponseDoc w userId now oid).lookup "id" = some (.str oid) :=
  ⟨rfl, rfl, rfl, rfl, rfl, rfl, rfl, rfl, rfl, rfl, rfl, rfl, rfl⟩

/-- C5: the persisted record's windSpeed is `Math.round` of the upstream
wind speed times 3.6, temperature and feelsLike are `Math.round` of the
upstream Celsius values, humidity and pressure are verbatim; and the
rounding really is to the nearest integer (within one half). -/
theorem C5_numeric_mapping (w : WeatherData) (userId : String) (now : ℤ) :
    (weatherSearchDoc w userId now).lookup "windSpeed"
        = some (.int (jsRound (w.wind_speed * 3.6)))
    ∧ (weatherSearchDoc w userId now).lookup "temperature"
        = some (.int (jsRound w.temp))
    ∧ (weatherSearchDoc w userId now).lookup "feelsLike"
        = some (.int (jsRound w.feels_like))
    ∧ (weatherSearchDoc w userId now).lookup "humidity" = some (.int w.humidity)
    ∧ (weatherSearchDoc w userId now).lookup "pressure" = some (.int w.pressure)
    ∧ |(jsRound (w.wind_speed * 3.6) : ℚ) - w.wind_speed * 3.6| ≤ 1/2
    ∧ |(jsRound w.temp : ℚ) - w.temp| ≤ 1/2
    ∧ |(jsRound w.feels_like : ℚ) - w.feels_like| ≤ 1/2 :=
  ⟨rfl, rfl, rfl, rfl, rfl, abs_jsRound_sub_le _, abs_jsRound_sub_le _,
   abs_jsRound_sub_le _⟩

/-- C6: on a protected route, an absent token rejects with 401 and an
unverifiable token with 403, in both cases without running the handler
and leaving the store untouched; a verified token attaches the resolved
claims and runs the handler on the unchanged store. -/
theorem C6_auth_middleware {σ : Type} (store : σ) (header : Option String)
    (verify : String → Option Claims) (handler : Claims → σ → σ × ℕ)
    (t : String) (u : Claims) :
    (tokenOf header = none →
      runProtected store header verify handler = (store, 401))
    ∧ (tokenOf header = some t → verify t = none →
      runProtected store header verify handler = (store, 403))
    ∧ (tokenOf header = some t → verify t = some u →
      runProtected store header verify handler = handler u store) := by
  refine ⟨fun h => ?_, fun h hv => ?_, fun h hv => ?_⟩ <;>
    simp [runProtected, authenticateToken, h]
  · simp [hv]
  · simp [hv]

/-- Witness for C6 at concrete stores, headers and verifiers. -/
theorem C6_auth_middleware_witness :
    runProtected ([] : List ℕ) none (fun _ => none)
        (fun _ s => (s ++ [1], 200)) = ([], 401)
    ∧ runProtected ([] : List ℕ) (some "Bearer tok") (fun _ => none)
        (fun _ s => (s ++ [1], 200)) = ([], 403)
    ∧ runProtected ([3] : List ℕ) (some "Bearer tok")
        (fun _ => some ⟨"u1", "alice", "a@x.com"⟩)
        (fun _ s => (s ++ [1], 200)) = ([3, 1], 200) :=
  ⟨(C6_auth_middleware ([] : List ℕ) none (fun _ => none)
      (fun _ s => (s ++ [1], 200)) "tok" ⟨"u1", "alice", "a@x.com"⟩).1 rfl,
   (C6_auth_middleware ([] : List ℕ) (some "Bearer tok") (fun _ => none)
      (fun _ s => (s ++ [1], 200)) "tok" ⟨"u1", "alice", "a@x.com"⟩).2.1 rfl rfl,
   ((C6_auth_middleware ([3] : List ℕ) (some "Bearer tok")
      (fun _ => some ⟨"u1", "alice", "a@x.com"⟩)
      (fun _ s => (s ++ [1], 200)) "tok" ⟨"u1", "alice", "a@x.com"⟩).2.2
      rfl rfl).trans rfl⟩

/-- C7: when the upstream weather API answers 404 the handler answers
404 and inserts nothing; any other non-success upstream status makes the
handler answer 500, likewise inserting nothing — the collection is
unchanged in both cases. -/
theorem C7_upstream_failure (store : List (List (String × JsVal)))
    (city userId : String) (now : ℤ) (s : ℕ) (hc : city ≠ "") :
    currentWeather store city userId (.err 404) now = (store, 404)
    ∧ (s ≠ 404 → currentWeather store city userId (.err s) now = (store, 500)) := by
  refine ⟨?_, fun hs => ?_⟩
  · simp [currentWeather, hc]
  · simp [currentWeather, hc, hs]

/-- Witness for C7: the "Nowhereville" scenario and an upstream 500. -/
theorem C7_upstream_failure_witness :
    currentWeather [] "Nowhereville" "u1" (.err 404) 0 = ([], 404)
    ∧ currentWeather [] "Nowhereville" "u1" (.err 500) 0 = ([], 500) :=
  ⟨(C7_upstream_failure [] "Nowhereville" "u1" 0 500 (by decide)).1,
   (C7_upstream_failure [] "Nowhereville" "u1" 0 500 (by decide)).2 (by decide)⟩

/-- C10: the middleware never inspects the scheme word of the
`Authorization` header — any `"<scheme> <token>"` header yields the
same token (hence the same verification outcome) as
`"Bearer <token>"` — and a header that is a single word with no space
(such as just `"Bearer"`) yields no token and a 401 rejection. -/
theorem C10_scheme_not_checked (scheme t w : List Char)
    (verify : String → Option Claims) (hs : ' ' ∉ scheme) (ht : ' ' ∉ t)
    (hne : t ≠ []) (hw : ' ' ∉ w) :
    tokenOf (some (String.mk (scheme ++ ' ' :: t))) = some (String.mk t)
    ∧ authenticateToken (some (String.mk (scheme ++ ' ' :: t))) verify
        = authenticateToken (some (String.mk ("Bearer".data ++ ' ' :: t))) verify
    ∧ authenticateToken (some (String.mk w)) verify
        = .reject 401 "Access token required" := by
  refine ⟨tokenOf_scheme scheme t hs ht hne, ?_, ?_⟩
  · simp only [authenticateToken, tokenOf_scheme scheme t hs ht hne,
      tokenOf_scheme "Bearer".data t (by decide) ht hne]
  · simp [authenticateToken, tokenOf, splitOnSpace_no_space w hw]

/-- Witness for C10: `Basic tok` is treated exactly like `Bearer tok`,
and the bare word `Bearer` is rejected with 401. -/
theorem C10_scheme_not_checked_witness :
    tokenOf (some (String.mk ("Basic".data ++ ' ' :: "tok".data)))
        = some (String.mk "tok".data)
    ∧ authenticateToken (some (String.mk ("Basic".data ++ ' ' :: "tok".data)))
        (fun _ => none)
      = authenticateToken (some (String.mk ("Bearer".data ++ ' ' :: "tok".data)))
        (fun _ => none)
    ∧ authenticateToken (some (String.mk "Bearer".data)) (fun _ => none)
        = .reject 401 "Access token required" :=
  C10_scheme_not_checked "Basic".data "tok".data "Bearer".data (fun _ => none)
    (by decide) (by decide) (by decide) (by decide)

/-- C8: registration fails with 400 and the distinct messages for a
missing field, a password shorter than 6 characters, and a duplicate
email or username, and in every failure case the users collection is
returned unchanged (the result does not depend on the hash function in
the failure cases, as `hash` is universally quantified and absent from
the conclusion). -/
theorem C8_register_validation (users : List User)
    (username? email? password? : Option String) (hash : String → String)
    (newId : String) (now : ℤ) (username email password : String) :
    (falsyStr username? = true ∨ falsyStr email? = true ∨ falsyStr password? = true →
      register users username? email? password? hash newId now
        = (users, .err 400 "Username, email, and password are required"))
    ∧ (username ≠ "" → email ≠ "" → password ≠ "" → password.length < 6 →
      register users (some username) (some email) (some password) hash newId now
        = (users, .err 400 "Password must be at least 6 characters long"))
    ∧ (username ≠ "" → email ≠ "" → password ≠ "" → ¬ password.length < 6 →
      (∃ u ∈ users, u.email = email ∨ u.username = username) →
      register users (some username) (some email) (some password) hash newId now
        = (users, .err 400 "User with this email or username already exists")) := by
  refine ⟨fun h => ?_, fun hu he hp hl => ?_, fun hu he hp hl hex => ?_⟩
  · unfold register
    rw [if_pos h]
  · simp [register, falsyStr, hu, he, hp, hl]
  · obtain ⟨u, hu_mem, hu_p⟩ := hex
    simp [register, falsyStr, hu, he, hp, hl]
    exact ⟨u, hu_mem, fun hne => hu_p.resolve_left hne⟩

/-- Witness for C8: the three failure cases at concrete requests, all
leaving the store as it was. -/
theorem C8_register_validation_witness :
    register [] none (some "a@x.com") (some "secret1") (fun s => s) "id9" 0
      = ([], .err 400 "Username, email, and password are required")
    ∧ register [] (some "alice") (some "a@x.com") (some "12345") (fun s => s)
        "id9" 0
      = ([], .err 400 "Password must be at least 6 characters long")
    ∧ register [⟨"id1", "alice", "a@x.com", "h", 0⟩] (some "alice")
        (some "b@x.com") (some "secret1") (fun s => s) "id9" 0
      = ([⟨"id1", "alice", "a@x.com", "h", 0⟩],
         .err 400 "User with this email or username already exists") :=
  ⟨(C8_register_validation [] none (some "a@x.com") (some "secret1")
      (fun s => s) "id9" 0 "x" "y" "z").1 (Or.inl (by decide)),
   (C8_register_validation [] none none none (fun s => s) "id9" 0
      "alice" "a@x.com" "12345").2.1 (by decide) (by decide) (by decide) (by decide),
   (C8_register_validation [⟨"id1", "alice", "a@x.com", "h", 0⟩] none none none
      (fun s => s) "id9" 0 "alice" "b@x.com" "secret1").2.2 (by decide)
      (by decide) (by decide) (by decide) (by decide)⟩

/-- C9: a page or limit query value of 0 is treated exactly like an
absent parameter (defaults 1 and 5), the effective limit is never 0 (so
the totalPages division has a nonzero divisor), and a negative page
value flows as-is into `skip = (page - 1) * limit`. -/
theorem C9_zero_query_defaults (store : List SearchRec) (uid : String)
    (page? limit? : Option ℤ) (n : ℤ) (hn : n < 0) :
    listSearches store uid (some 0) limit? = listSearches store uid none limit?
    ∧ listSearches store uid page? (some 0) = listSearches store uid page? none
    ∧ parseIntOr limit? 5 ≠ 0
    ∧ skipOf (some n) limit? = (n - 1) * parseIntOr limit? 5 := by
  refine ⟨?_, ?_, ?_, ?_⟩
  · simp [listSearches, parseIntOr]
  · simp [listSearches, parseIntOr]
  · cases limit? with
    | none => simp [parseIntOr]
    | some m => by_cases hm : m = 0 <;> simp [parseIntOr, hm]
  · have hn0 : n ≠ 0 := by omega
    simp [skipOf, parseIntOr, hn0]

/-- Witness for C9 at a concrete store and a negative page value. -/
theorem C9_zero_query_defaults_witness :
    listSearches [⟨"a", "u", 1⟩] "u" (some 0) (some 2)
        = listSearches [⟨"a", "u", 1⟩] "u" none (some 2)
    ∧ listSearches [⟨"a", "u", 1⟩] "u" (some 1) (some 0)
        = listSearches [⟨"a", "u", 1⟩] "u" (some 1) none
    ∧ parseIntOr (some 2) 5 ≠ 0
    ∧ skipOf (some (-2)) (some 2) = (-2 - 1) * parseIntOr (some 2) 5 :=
  C9_zero_query_defaults [⟨"a", "u", 1⟩] "u" (some 1) (some 2) (-2) (by decide)

/-- C1: deleting with a malformed id fails with 400 and removes nothing;
with a well-formed id, any removed document matched both the id and the
caller's userId; when nothing matches both, the handler answers 404 and
the collection is unchanged; in particular user A deleting user B's
record id (ids being unique) gets 404 and B's record survives. -/
theorem C1_delete_isolation (store : List SearchRec) (sid uidA : String)
    (r : SearchRec) :
    (¬ isValidObjectId sid = true → deleteSearch store sid uidA = (store, 400))
    ∧ (isValidObjectId sid = true →
       (∀ s ∈ store, ¬ (s._id = sid ∧ s.userId = uidA)) →
       deleteSearch store sid uidA = (store, 404))
    ∧ (∀ s ∈ store, s ∈ (deleteSearch store sid uidA).1
        ∨ (s._id = sid ∧ s.userId = uidA))
    ∧ (isValidObjectId r._id = true → r ∈ store →
       (∀ s ∈ store, s._id = r._id → s = r) → uidA ≠ r.userId →
       deleteSearch store r._id uidA = (store, 404)
       ∧ r ∈ (deleteSearch store r._id uidA).1) := by
  have hno_match : ∀ (sid' : String), isValidObjectId sid' = true →
      (∀ s ∈ store, ¬ (s._id = sid' ∧ s.userId = uidA)) →
      deleteSearch store sid' uidA = (store, 404) := by
    intro sid' hv hno
    simp [deleteSearch, hv, deleteOne_no_match store sid' uidA hno]
  refine ⟨fun h => ?_, hno_match sid, fun s hs => ?_, fun hv hr huniq hAB => ?_⟩
  · simp [deleteSearch, h]
  · by_cases hval : isValidObjectId sid = true
    · have h1 : (deleteSearch store sid uidA).1 = (deleteOne store sid uidA).1 := by
        simp only [deleteSearch, hval, not_true_eq_false, if_false]
        rcases h : deleteOne store sid uidA with ⟨store', cnt⟩
        by_cases hc : cnt = 0 <;> simp [hc]
      rw [h1]
      exact mem_deleteOne_or store sid uidA s hs
    · simp [deleteSearch, hval, hs]
  · have hno : ∀ s ∈ store, ¬ (s._id = r._id ∧ s.userId = uidA) := by
      intro s hs hmatch
      have : s = r := huniq s hs hmatch.1
      exact hAB (this ▸ hmatch.2).symm
    have h404 := hno_match r._id hv hno
    exact ⟨h404, by rw [h404]; exact hr⟩

/-- Witness for C1: a store holding one record of user B; a malformed
id gets 400, user A deleting B's record gets 404 and the record
survives. -/
theorem C1_delete_isolation_witness :
    deleteSearch [⟨"507f1f77bcf86cd799439011", "B", 5⟩] "zz" "A"
      = ([⟨"507f1f77bcf86cd799439011", "B", 5⟩], 400)
    ∧ deleteSearch [⟨"507f1f77bcf86cd799439011", "B", 5⟩]
        "507f1f77bcf86cd799439011" "A"
      = ([⟨"507f1f77bcf86cd799439011", "B", 5⟩], 404)
    ∧ (⟨"507f1f77bcf86cd799439011", "B", 5⟩ : SearchRec)
        ∈ (deleteSearch [⟨"507f1f77bcf86cd799439011", "B", 5⟩]
            "507f1f77bcf86cd799439011" "A").1 := by
  refine ⟨(C1_delete_isolation [⟨"507f1f77bcf86cd799439011", "B", 5⟩] "zz" "A"
      ⟨"507f1f77bcf86cd799439011", "B", 5⟩).1 (by decide), ?_, ?_⟩
  · exact ((C1_delete_isolation [⟨"507f1f77bcf86cd799439011", "B", 5⟩]
      "507f1f77bcf86cd799439011" "A" ⟨"507f1f77bcf86cd799439011", "B", 5⟩).2.2.2
      (by decide) (by decide) (by decide) (by decide)).1
  · exact ((C1_delete_isolation [⟨"507f1f77bcf86cd799439011", "B", 5⟩]
      "507f1f77bcf86cd799439011" "A" ⟨"507f1f77bcf86cd799439011", "B", 5⟩).2.2.2
      (by decide) (by decide) (by decide) (by decide)).2

/-- C2: page and limit default to 1 and 5 when absent or non-numeric;
totalSearches counts only the caller's records; totalPages is
`ceil(totalSearches / limit)`; the returned searches are the
`drop ((page-1)*limit)` / `take limit` window of the caller's records
sorted by timestamp descending (so at most `limit` of them, all owned by
the caller); and for any positive limit `L`, concatenating pages
`1..totalPages` yields exactly the caller's records sorted by timestamp
descending — a permutation of them, with no duplicates or gaps. -/
theorem C2_pagination (store : List SearchRec) (uid : String)
    (page? limit? : Option ℤ) (L : ℤ) (hL : 0 < L) :
    listSearches store uid none limit? = listSearches store uid (some 1) limit?
    ∧ listSearches store uid page? none = listSearches store uid page? (some 5)
    ∧ (listSearches store uid page? limit?).totalSearches
        = (store.filter (fun r => r.userId = uid)).length
    ∧ (listSearches store uid page? limit?).totalPages
        = ceilDiv (store.filter (fun r => r.userId = uid)).length
            (parseIntOr limit? 5)
    ∧ (listSearches store uid page? limit?).searches
        = ((sortByTimestampDesc (store.filter (fun r => r.userId = uid))).drop
            (skipOf page? limit?).toNat).take (parseIntOr limit? 5).toNat
    ∧ (listSearches store uid page? limit?).searches.length
        ≤ (parseIntOr limit? 5).toNat
    ∧ (∀ r ∈ (listSearches store uid page? limit?).searches, r.userId = uid)
    ∧ allPages store uid L
        = sortByTimestampDesc (store.filter (fun r => r.userId = uid))
    ∧ (allPages store uid L).Perm (store.filter (fun r => r.userId = uid))
    ∧ List.Pairwise (fun a b => b.timestamp ≤ a.timestamp) (allPages store uid L)
    ∧ (allPages store uid L).length
        = (store.filter (fun r => r.userId = uid)).length := by
  refine ⟨?_, ?_, rfl, rfl, rfl, List.length_take_le _ _, ?_,
    allPages_eq store uid L hL, ?_, ?_, ?_⟩
  · simp [listSearches, parseIntOr]
  · simp [listSearches, parseIntOr]
  · intro r hr
    have h5 : (listSearches store uid page? limit?).searches
        = ((sortByTimestampDesc (store.filter (fun r => r.userId = uid))).drop
            (skipOf page? limit?).toNat).take (parseIntOr limit? 5).toNat := rfl
    rw [h5] at hr
    have h1 : r ∈ sortByTimestampDesc (store.filter (fun r => r.userId = uid)) :=
      List.mem_of_mem_drop (List.mem_of_mem_take hr)
    rw [sortByTimestampDesc] at h1
    have h2 : r ∈ store.filter (fun r => r.userId = uid) :=
      (List.mergeSort_perm _ _).mem_iff.mp h1
    exact of_decide_eq_true (List.mem_filter.mp h2).2
  · rw [allPages_eq store uid L hL, sortByTimestampDesc]
    exact List.mergeSort_perm _ _
  · rw [allPages_eq store uid L hL, sortByTimestampDesc]
    exact (List.sorted_mergeSort tsDesc_trans tsDesc_total _).imp
      (fun h => of_decide_eq_true h)
  · rw [allPages_eq store uid L hL, sortByTimestampDesc, List.length_mergeSort]

/-- Witness for C2 at a concrete store of three records of user `u` and
one of user `v`, with limit 2. -/
theorem C2_pagination_witness :
    listSearches [⟨"a", "u", 1⟩, ⟨"b", "u", 9⟩, ⟨"c", "v", 5⟩, ⟨"d", "u", 4⟩]
        "u" none (some 2)
      = listSearches [⟨"a", "u", 1⟩, ⟨"b", "u", 9⟩, ⟨"c", "v", 5⟩, ⟨"d", "u", 4⟩]
        "u" (some 1) (some 2)
    ∧ allPages [⟨"a", "u", 1⟩, ⟨"b", "u", 9⟩, ⟨"c", "v", 5⟩, ⟨"d", "u", 4⟩] "u" 2
      = sortByTimestampDesc
        (([⟨"a", "u", 1⟩, ⟨"b", "u", 9⟩, ⟨"c", "v", 5⟩, ⟨"d", "u", 4⟩] :
            List SearchRec).filter (fun r => r.userId = "u"))
    ∧ (allPages [⟨"a", "u", 1⟩, ⟨"b", "u", 9⟩, ⟨"c", "v", 5⟩, ⟨"d", "u", 4⟩]
        "u" 2).length
      = (([⟨"a", "u", 1⟩, ⟨"b", "u", 9⟩, ⟨"c", "v", 5⟩, ⟨"d", "u", 4⟩] :
            List SearchRec).filter (fun r => r.userId = "u")).length :=
  ⟨(C2_pagination [⟨"a", "u", 1⟩, ⟨"b", "u", 9⟩, ⟨"c", "v", 5⟩, ⟨"d", "u", 4⟩]
      "u" (some 2) (some 2) 2 (by decide)).1,
   (C2_pagination [⟨"a", "u", 1⟩, ⟨"b", "u", 9⟩, ⟨"c", "v", 5⟩, ⟨"d", "u", 4⟩]
      "u" (some 2) (some 2) 2 (by decide)).2.2.2.2.2.2.2.1,
   (C2_pagination [⟨"a", "u", 1⟩, ⟨"b", "u", 9⟩, ⟨"c", "v", 5⟩, ⟨"d", "u", 4⟩]
      "u" (some 2) (some 2) 2 (by decide)).2.2.2.2.2.2.2.2.2.2⟩

end DevClimate
